import Mathlib

/-!
Shallow embedding of the `LogWatcher` class of `src/watcher.py`: the log-line
parser (regular-expression match plus numeric coercion), the bounded sliding
window (`collections.deque` with `maxlen`), the error-rate calculator, the
pool-change (failover) detector, the alert dispatcher with per-type cooldown,
and the per-line processing step that ties them together.

Machine floats are modelled as exact rationals (`ℚ`); timestamps from
`time.time()` are passed in explicitly as rationals.
-/

/-- Python float values: finite values are modelled as exact rationals,
plus the special values accepted by the `float` constructor. -/
inductive PyFloat where
  | fin (q : ℚ)
  | inf
  | neginf
  | nan
deriving DecidableEq, Repr

/-- ASCII decimal digit test, as in the regex class `\d`. -/
def isDigitCh (c : Char) : Bool := '0' ≤ c && c ≤ '9'

/-- ASCII whitespace test, as in the regex class `\s` (space, tab, newline,
carriage return, vertical tab, form feed). -/
def isSpaceCh (c : Char) : Bool :=
  c = ' ' || c = '\t' || c = '\n' || c = '\r' || c = Char.ofNat 11 || c = Char.ofNat 12

/-- Numeric value of a decimal digit character. -/
def digitVal (c : Char) : Nat := c.toNat - 48

/-- Accumulating parser for a run of decimal digits in which a single
underscore may separate two digits (Python numeric-literal rule); returns
the value and the number of digits consumed. -/
def parseUDigitsAux : List Char → Nat → Nat → Option (Nat × Nat)
  | [], acc, cnt => some (acc, cnt)
  | '_' :: c :: rest, acc, cnt =>
      if isDigitCh c then parseUDigitsAux rest (acc * 10 + digitVal c) (cnt + 1) else none
  | ['_'], _, _ => none
  | c :: rest, acc, cnt =>
      if isDigitCh c then parseUDigitsAux rest (acc * 10 + digitVal c) (cnt + 1) else none

/-- Parse a nonempty digit run (underscore-separated) that must start with a
digit; returns the value and the digit count. -/
def parseUDigits (cs : List Char) : Option (Nat × Nat) :=
  match cs with
  | c :: _ => if isDigitCh c then parseUDigitsAux cs 0 0 else none
  | [] => none

/-- Model of Python `int(s)` on whitespace-free strings (the inputs reachable
from the regex groups, which are `\S+` or `\d+`): optional sign followed by
underscore-separated digits. -/
def pyInt? (s : String) : Option Int :=
  match s.data with
  | '+' :: rest => (parseUDigits rest).map fun p => (p.1 : Int)
  | '-' :: rest => (parseUDigits rest).map fun p => -(p.1 : Int)
  | cs => (parseUDigits cs).map fun p => (p.1 : Int)

/-- Split a character list at the first `.`, if any. -/
def breakDot : List Char → List Char × Option (List Char)
  | [] => ([], none)
  | '.' :: rest => ([], some rest)
  | c :: rest =>
      let r := breakDot rest
      (c :: r.1, r.2)

/-- Split a character list at the first `e` or `E`, if any. -/
def breakExp : List Char → List Char × Option (List Char)
  | [] => ([], none)
  | 'e' :: rest => ([], some rest)
  | 'E' :: rest => ([], some rest)
  | c :: rest =>
      let r := breakExp rest
      (c :: r.1, r.2)

/-- Parse the mantissa of a float literal: `digits`, `digits.`, `.digits` or
`digits.digits`. -/
def parseMantissa (cs : List Char) : Option ℚ :=
  match breakDot cs with
  | (ics, none) => (parseUDigits ics).map fun p => (p.1 : ℚ)
  | ([], some fcs) => (parseUDigits fcs).map fun p => (p.1 : ℚ) / (10 : ℚ) ^ p.2
  | (ics, some []) => (parseUDigits ics).map fun p => (p.1 : ℚ)
  | (ics, some fcs) =>
      match parseUDigits ics, parseUDigits fcs with
      | some p, some q => some ((p.1 : ℚ) + (q.1 : ℚ) / (10 : ℚ) ^ q.2)
      | _, _ => none

/-- Parse the exponent of a float literal: optional sign and digits. -/
def parseExpPart (cs : List Char) : Option Int :=
  match cs with
  | '+' :: rest => (parseUDigits rest).map fun p => (p.1 : Int)
  | '-' :: rest => (parseUDigits rest).map fun p => -(p.1 : Int)
  | _ => (parseUDigits cs).map fun p => (p.1 : Int)

/-- Parse an unsigned decimal float literal with optional exponent. -/
def parseUFloat (cs : List Char) : Option ℚ :=
  match breakExp cs with
  | (mcs, none) => parseMantissa mcs
  | (mcs, some ecs) =>
      match parseMantissa mcs, parseExpPart ecs with
      | some m, some e => some (m * (10 : ℚ) ^ e)
      | _, _ => none

/-- Lower-case a character list (for the case-insensitive `inf`/`nan` words). -/
def lowerStr (cs : List Char) : List Char := cs.map Char.toLower

/-- Body of `float(s)` after the optional sign has been removed. -/
def pyFloatCore (cs : List Char) (negSign : Bool) : Option PyFloat :=
  let low := lowerStr cs
  if low = "inf".data || low = "infinity".data then
    some (if negSign then PyFloat.neginf else PyFloat.inf)
  else if low = "nan".data then
    some PyFloat.nan
  else
    (parseUFloat cs).map fun q => PyFloat.fin (if negSign then -q else q)

/-- Model of Python `float(s)` on whitespace-free strings (the inputs
reachable from the `\S+` regex groups). -/
def pyFloat? (s : String) : Option PyFloat :=
  match s.data with
  | '+' :: rest => pyFloatCore rest false
  | '-' :: rest => pyFloatCore rest true
  | cs => pyFloatCore cs false

/-- The two character classes occurring in `LogWatcher.log_pattern`. -/
inductive CharClass where
  | digit
  | nonSpace
deriving DecidableEq, Repr

/-- Membership test of a character class. -/
def classFn : CharClass → Char → Bool
  | CharClass.digit, c => isDigitCh c
  | CharClass.nonSpace, c => !(isSpaceCh c)

/-- Regex tokens sufficient for `LogWatcher.log_pattern`: a literal character,
a lazily-matched capturing `(.*?)`, a greedy capturing one-or-more of a
character class, and the (internal) greedy continuation of such a capture. -/
inductive Tok where
  | lit (c : Char)
  | lazyStar
  | plusCls (cls : CharClass)
  | starCls (cls : CharClass)
deriving DecidableEq, Repr

/-- Prepend a character to the first (current) capture group of a result. -/
def prependGroup (x : Char) (r : Option (List (List Char))) : Option (List (List Char)) :=
  r.map fun gs =>
    match gs with
    | g :: rest => (x :: g) :: rest
    | [] => []

/-- Backtracking matcher for the token list, anchored at the start of the
input but allowing trailing input (the semantics of `re.match`): lazy stars
try the shortest extension first, greedy classes the longest, exactly as the
Python regex engine does.  Capture groups are returned in pattern order.
`fuel` only bounds the recursion; every call strictly decreases
`tokens + input`, so any fuel above that sum gives the true answer. -/
def matchToks : Nat → List Tok → List Char → Option (List (List Char))
  | 0, _, _ => none
  | _ + 1, [], _ => some []
  | fuel + 1, Tok.lit c :: ts, s =>
      match s with
      | [] => none
      | x :: s1 => if x = c then matchToks fuel ts s1 else none
  | fuel + 1, Tok.lazyStar :: ts, s =>
      match matchToks fuel ts s with
      | some gs => some ([] :: gs)
      | none =>
          match s with
          | [] => none
          | x :: s1 =>
              if x = '\n' then none
              else prependGroup x (matchToks fuel (Tok.lazyStar :: ts) s1)
  | fuel + 1, Tok.plusCls cls :: ts, s =>
      match s with
      | [] => none
      | x :: s1 =>
          if classFn cls x then prependGroup x (matchToks fuel (Tok.starCls cls :: ts) s1)
          else none
  | fuel + 1, Tok.starCls cls :: ts, s =>
      match s with
      | [] =>
          (matchToks fuel ts []).map fun gs => [] :: gs
      | x :: s1 =>
          if classFn cls x then
            match matchToks fuel (Tok.starCls cls :: ts) s1 with
            | some gs => prependGroup x (some gs)
            | none => (matchToks fuel ts (x :: s1)).map fun gs => [] :: gs
          else
            (matchToks fuel ts (x :: s1)).map fun gs => [] :: gs

/-- `LogWatcher.log_pattern`, token by token: bracketed lazy timestamp,
`\S+` remote address, quoted lazy request, `\d+` status, quoted lazy user
agent, `\S+` request time, `\S+` upstream response time, quoted lazy
upstream address, `\S+` upstream status, quoted lazy pool, quoted lazy
release. -/
def log_pattern : List Tok :=
  [Tok.lit '[', Tok.lazyStar, Tok.lit ']', Tok.lit ' ',
   Tok.plusCls CharClass.nonSpace, Tok.lit ' ',
   Tok.lit '"', Tok.lazyStar, Tok.lit '"', Tok.lit ' ',
   Tok.plusCls CharClass.digit, Tok.lit ' ',
   Tok.lit '"', Tok.lazyStar, Tok.lit '"', Tok.lit ' ',
   Tok.plusCls CharClass.nonSpace, Tok.lit ' ',
   Tok.plusCls CharClass.nonSpace, Tok.lit ' ',
   Tok.lit '"', Tok.lazyStar, Tok.lit '"', Tok.lit ' ',
   Tok.plusCls CharClass.nonSpace, Tok.lit ' ',
   Tok.lit '"', Tok.lazyStar, Tok.lit '"', Tok.lit ' ',
   Tok.lit '"', Tok.lazyStar, Tok.lit '"']

/-- The named groups of `log_pattern`, all as raw strings (the result of
`match.groupdict()` before numeric conversion). -/
structure Groups where
  timestamp : String
  remote_addr : String
  request : String
  status : String
  user_agent : String
  request_time : String
  upstream_response_time : String
  upstream_addr : String
  upstream_status : String
  pool : String
  release : String
deriving DecidableEq, Repr

/-- `self.log_pattern.match(line)` followed by `match.groupdict()`:
`none` when the regex does not match. -/
def log_pattern_match (line : String) : Option Groups :=
  match matchToks (line.data.length + log_pattern.length + 1) log_pattern line.data with
  | some [g1, g2, g3, g4, g5, g6, g7, g8, g9, g10, g11] =>
      some ⟨⟨g1⟩, ⟨g2⟩, ⟨g3⟩, ⟨g4⟩, ⟨g5⟩, ⟨g6⟩, ⟨g7⟩, ⟨g8⟩, ⟨g9⟩, ⟨g10⟩, ⟨g11⟩⟩
  | _ => none

/-- A parsed log record: the dictionary produced by `parse_log_line` after
the numeric fields have been converted. -/
structure LogRecord where
  timestamp : String
  remote_addr : String
  request : String
  status : Int
  user_agent : String
  request_time : PyFloat
  upstream_response_time : PyFloat
  upstream_addr : String
  upstream_status : Int
  pool : String
  release : String
deriving DecidableEq, Repr

/-- `float(s) if s != '-' else 0.0`, the coercion applied to the two timing
fields. -/
def coerceTime (s : String) : Option PyFloat :=
  if s = "-" then some (PyFloat.fin 0) else pyFloat? s

/-- The numeric-conversion block of `parse_log_line` (the `try` body):
`int` on status, `float`-or-placeholder on the timing fields,
`int`-or-fallback-to-status on the upstream status; any conversion failure
(the `except` branch) rejects the whole line. -/
def convert_fields (g : Groups) : Option LogRecord :=
  match pyInt? g.status with
  | none => none
  | some st =>
      match coerceTime g.request_time with
      | none => none
      | some rt =>
          match coerceTime g.upstream_response_time with
          | none => none
          | some urt =>
              match (if g.upstream_status = "-" then some st else pyInt? g.upstream_status) with
              | none => none
              | some ust =>
                  some ⟨g.timestamp, g.remote_addr, g.request, st, g.user_agent, rt, urt,
                        g.upstream_addr, ust, g.pool, g.release⟩

/-- `LogWatcher.parse_log_line`: regex match, then numeric conversion;
`none` models the `return None` paths (no match, or coercion failure). -/
def parse_log_line (line : String) : Option LogRecord :=
  (log_pattern_match line).bind convert_fields

/-- Python truthiness of an optional string (`None` and `""` are falsy). -/
def pythonTruthy : Option String → Bool
  | none => false
  | some s => s != ""

/-- `deque.append` with `maxlen = n`: append the new element and evict from
the left until the length is within the capacity. -/
def pushWindow {α : Type} (n : Nat) (w : List α) (x : α) : List α :=
  let l := w ++ [x]
  l.drop (l.length - n)

/-- Whether a record counts as an error: upstream status in `[500, 600)`
(the predicate of `calculate_error_rate`). -/
def isErrorRecord (r : LogRecord) : Bool :=
  decide (500 ≤ r.upstream_status ∧ r.upstream_status < 600)

/-- `LogWatcher.calculate_error_rate`: `0.0` on an empty window, otherwise
`(error_count / len(window)) * 100`. -/
def calculate_error_rate (w : List LogRecord) : ℚ :=
  if w = [] then 0
  else ((w.countP fun r => isErrorRecord r) / (w.length : ℚ)) * 100

/-- Mutable configuration and state of a `LogWatcher` instance.  The
`last_alert_time` dict is an association list keyed by alert type. -/
structure WatcherState where
  error_threshold : ℚ
  window_size : Nat
  cooldown_sec : ℚ
  maintenance_mode : Bool
  slack_webhook : Option String
  last_alert_time : List (String × ℚ)
  request_window : List LogRecord
  current_pool : Option String
deriving DecidableEq, Repr

/-- Insert or replace the entry for a key in the `last_alert_time` dict. -/
def alistSet (m : List (String × ℚ)) (k : String) (v : ℚ) : List (String × ℚ) :=
  match m with
  | [] => [(k, v)]
  | (k1, v1) :: rest => if k1 = k then (k, v) :: rest else (k1, v1) :: alistSet rest k v

/-- `LogWatcher.is_cooldown_active`: false for an alert type never recorded;
otherwise whether the elapsed time since the last send is below the
cooldown. -/
def is_cooldown_active (st : WatcherState) (alert_type : String) (now : ℚ) : Bool :=
  match st.last_alert_time.lookup alert_type with
  | none => false
  | some t => decide (now - t < st.cooldown_sec)

/-- Outcome of one `requests.post` to the webhook: an HTTP status code, or a
raised exception (transport failure / timeout). -/
inductive SinkResponse where
  | status (code : Nat)
  | exn
deriving DecidableEq, Repr

/-- Observable outcome of one `send_slack_alert` call, read off from which
branch of the function runs. -/
inductive DispatchResult where
  | suppressedMaintenance
  | failedUnconfigured
  | suppressedCooldown
  | sent
  | failedStatus (code : Nat)
  | failedExn
deriving DecidableEq, Repr

/-- `LogWatcher.send_slack_alert`: maintenance mode, missing webhook and
active cooldown each return early without touching state; otherwise the
message is posted and `last_alert_time[alert_type]` is set to the current
time exactly when the response code is 200. -/
def send_slack_alert (st : WatcherState) (alert_type : String) (now : ℚ)
    (resp : SinkResponse) : DispatchResult × WatcherState :=
  if st.maintenance_mode then (DispatchResult.suppressedMaintenance, st)
  else if pythonTruthy st.slack_webhook = false then (DispatchResult.failedUnconfigured, st)
  else if is_cooldown_active st alert_type now then (DispatchResult.suppressedCooldown, st)
  else
    match resp with
    | SinkResponse.status code =>
        if code = 200 then
          (DispatchResult.sent,
           { st with last_alert_time := alistSet st.last_alert_time alert_type now })
        else (DispatchResult.failedStatus code, st)
    | SinkResponse.exn => (DispatchResult.failedExn, st)

/-- The payload of a failover alert: the details dict built in
`process_log_line` when a pool change is detected. -/
structure FailoverEvent where
  previous : String
  new : String
  release : String
  timestamp : String
deriving DecidableEq, Repr

/-- Result of one `process_log_line` call: the updated watcher state, the
failover event (if one was detected), and the dispatch outcomes of the
failover and high-error-rate alerts (if attempted). -/
structure ProcessResult where
  state : WatcherState
  failoverEvent : Option FailoverEvent
  failoverDispatch : Option DispatchResult
  errorDispatch : Option DispatchResult
deriving DecidableEq, Repr

/-- The error-rate block at the end of `process_log_line`: compute the rate
on the current window and attempt the "High Error Rate" alert when it
exceeds the threshold and the window has reached the configured size. -/
def errorCheck (st : WatcherState) (ev : Option FailoverEvent)
    (fd : Option DispatchResult) (now : ℚ) (errResp : SinkResponse) : ProcessResult :=
  if calculate_error_rate st.request_window > st.error_threshold
      ∧ st.request_window.length ≥ st.window_size then
    let d := send_slack_alert st "High Error Rate" now errResp
    ⟨d.2, ev, fd, some d.1⟩
  else ⟨st, ev, fd, none⟩

/-- `LogWatcher.process_log_line`: parse the line (returning unchanged state
on failure), append the record to the window, run the pool-change check
(attempting a "Failover Detected" alert when the previously stored pool is
truthy and differs, and unconditionally storing the newly observed pool when
it is truthy and differs), then run the error-rate check.  `now` stands for
`time.time()` and the two `SinkResponse` arguments for the webhook's
behaviour on the (up to two) posts. -/
def process_log_line (st : WatcherState) (line : String) (now : ℚ)
    (failResp errResp : SinkResponse) : ProcessResult :=
  match parse_log_line line with
  | none => ⟨st, none, none, none⟩
  | some data =>
      let st1 := { st with request_window := pushWindow st.window_size st.request_window data }
      if data.pool ≠ "" ∧ some data.pool ≠ st1.current_pool then
        match st1.current_pool with
        | some prev =>
            if prev ≠ "" ∧ data.pool ≠ prev then
              let ev : FailoverEvent := ⟨prev, data.pool, data.release, data.timestamp⟩
              let d := send_slack_alert st1 "Failover Detected" now failResp
              errorCheck { d.2 with current_pool := some data.pool } (some ev) (some d.1) now errResp
            else
              errorCheck { st1 with current_pool := some data.pool } none none now errResp
        | none => errorCheck { st1 with current_pool := some data.pool } none none now errResp
      else errorCheck st1 none none now errResp

/-- A record whose upstream status is a server error (503). -/
def sampleError : LogRecord :=
  ⟨"t", "1.1.1.1", "GET /", 503, "ua", PyFloat.fin 0, PyFloat.fin 0, "up", 503, "blue", "r1"⟩

/-- A record whose upstream status is a success (200). -/
def sampleOk : LogRecord :=
  ⟨"t", "1.1.1.1", "GET /", 200, "ua", PyFloat.fin 0, PyFloat.fin 0, "up", 200, "blue", "r1"⟩

/-- A small concrete watcher state used to instantiate the theorems:
threshold 2 percent, window size 200, cooldown 300 seconds, maintenance off,
webhook configured, nothing sent yet, empty window, no pool seen. -/
def sampleState : WatcherState :=
  ⟨2, 200, 300, false, some "hook", [], [], none⟩

/-- A JSON value, as produced by a JSON decoder from one input line. -/
inductive Json where
  | null
  | bool (b : Bool)
  | num (q : ℚ)
  | str (s : String)
  | arr (xs : List Json)
  | obj (kvs : List (String × Json))

/-- First value stored under a key in a JSON object. -/
def jsonLookup (kvs : List (String × Json)) (k : String) : Option Json :=
  match kvs with
  | [] => none
  | (k1, v) :: rest => if k1 = k then some v else jsonLookup rest k

/-- A string-valued key, absent when missing or of another type. -/
def jsonStr (kvs : List (String × Json)) (k : String) : Option String :=
  match jsonLookup kvs k with
  | some (Json.str s) => some s
  | _ => none

/-- An integer-valued key with a default: a non-integer or missing value
falls back to the default. -/
def jsonIntD (kvs : List (String × Json)) (k : String) (d : Int) : Int :=
  match jsonLookup kvs k with
  | some (Json.num q) => if q.den = 1 then q.num else d
  | _ => d

/-- A numeric key defaulting to 0 when missing or non-numeric. -/
def jsonNumD (kvs : List (String × Json)) (k : String) : ℚ :=
  match jsonLookup kvs k with
  | some (Json.num q) => q
  | _ => 0

/-- The record produced by the JSON-grammar parser variant. -/
structure JsonLogRecord where
  pool : Option String
  release : Option String
  status : Int
  upstream_addr : Option String
  request_time : ℚ
  upstream_status : Int
deriving DecidableEq, Repr

/-- Modelled from the spec: the JSON-grammar parser variant of the watcher is
not present under `src/` (only the structured-text variant is).  Per the
spec, each line is one JSON object with keys pool, release, status,
upstream_addr, request_time and upstream_status; malformed input — here, any
non-object value — is unparseable; a missing key degrades to a default
rather than failing; a missing or non-numeric status is treated as 0; and a
missing upstream status falls back to the client-facing status. -/
def parse_json_line (j : Json) : Option JsonLogRecord :=
  match j with
  | Json.obj kvs =>
      let st := jsonIntD kvs "status" 0
      some
        { pool := jsonStr kvs "pool"
          release := jsonStr kvs "release"
          status := st
          upstream_addr := jsonStr kvs "upstream_addr"
          request_time := jsonNumD kvs "request_time"
          upstream_status := jsonIntD kvs "upstream_status" st }
  | _ => none

/-- A log line carrying pool "A". -/
def lineA : String := "[t] 1.1.1.1 \"GET /\" 200 \"ua\" - - \"up\" - \"A\" \"r1\""

/-- A log line carrying pool "B". -/
def lineB : String := "[t] 1.1.1.1 \"GET /\" 200 \"ua\" - - \"up\" - \"B\" \"r1\""

/-- The record `lineA` parses to. -/
def recA : LogRecord :=
  ⟨"t", "1.1.1.1", "GET /", 200, "ua", PyFloat.fin 0, PyFloat.fin 0, "up", 200, "A", "r1"⟩

/-- The record `lineB` parses to. -/
def recB : LogRecord :=
  ⟨"t", "1.1.1.1", "GET /", 200, "ua", PyFloat.fin 0, PyFloat.fin 0, "up", 200, "B", "r1"⟩

/-- First step of the pool scenario A, A, B from a fresh state. -/
def stepA1 : ProcessResult :=
  process_log_line sampleState lineA 0 (SinkResponse.status 200) (SinkResponse.status 200)

/-- Second step of the pool scenario: pool "A" observed again. -/
def stepA2 : ProcessResult :=
  process_log_line stepA1.state lineA 1 (SinkResponse.status 200) (SinkResponse.status 200)

/-- Third step of the pool scenario: pool "B" observed. -/
def stepB3 : ProcessResult :=
  process_log_line stepA2.state lineB 2 (SinkResponse.status 200) (SinkResponse.status 200)

/-! ## Theorems -/

/-- `pushWindow` keeps the last `n` elements of the appended list. -/
theorem pushWindow_eq_rtake {α : Type} (n : Nat) (w : List α) (x : α) :
    pushWindow n w x = (w ++ [x]).rtake n := rfl

/-- Taking `n` from a cons whose tail was already truncated at `n` is the
same as taking `n` from the original cons. -/
theorem take_cons_take {α : Type} (n : Nat) (x : α) (ys : List α) :
    (x :: ys.take n).take n = (x :: ys).take n := by
  cases n with
  | zero => simp
  | succ m =>
      simp only [List.take_succ_cons, List.take_take]
      rw [Nat.min_eq_left (Nat.le_succ m)]

/-- Pushing onto the suffix of length `n` gives the same window as pushing
onto the whole history and keeping the last `n`. -/
theorem rtake_append_singleton_rtake {α : Type} (n : Nat) (l : List α) (x : α) :
    ((l.rtake n) ++ [x]).rtake n = (l ++ [x]).rtake n := by
  simp only [List.rtake_eq_reverse_take_reverse, List.reverse_append, List.reverse_cons,
    List.reverse_nil, List.nil_append, List.reverse_reverse, List.singleton_append]
  rw [take_cons_take]

/-- Folding `pushWindow` over new elements, starting from the last `n` of a
history, yields the last `n` of the extended history. -/
theorem foldl_pushWindow_rtake {α : Type} (n : Nat) (xs : List α) :
    ∀ l : List α, List.foldl (pushWindow n) (l.rtake n) xs = (l ++ xs).rtake n := by
  induction xs with
  | nil => intro l; simp
  | cons x xs ih =>
      intro l
      rw [List.foldl_cons, pushWindow_eq_rtake, rtake_append_singleton_rtake, ih (l ++ [x])]
      simp

/-- C3: the window, a `deque` with `maxlen = n`, is a bounded FIFO — folding
pushes over any input leaves exactly the last `n` elements in arrival order,
its length never exceeds `n` and equals `n` as soon as at least `n` records
were pushed, a push below capacity evicts nothing, and a push at capacity
(with a nonempty window) evicts exactly the oldest element. -/
theorem window_fifo_bounded : ∀ (α : Type) (n : Nat),
    (∀ xs : List α, List.foldl (pushWindow n) [] xs = xs.drop (xs.length - n))
  ∧ (∀ xs : List α, n ≤ xs.length → (List.foldl (pushWindow n) [] xs).length = n)
  ∧ (∀ (w : List α) (x : α), (pushWindow n w x).length ≤ n)
  ∧ (∀ (w : List α) (x : α), w.length < n → pushWindow n w x = w ++ [x])
  ∧ (∀ (w : List α) (x : α), w.length = n → 0 < n → pushWindow n w x = w.tail ++ [x]) := by
  intro α n
  have hfold : ∀ xs : List α, List.foldl (pushWindow n) [] xs = xs.drop (xs.length - n) := by
    intro xs
    have h := foldl_pushWindow_rtake n xs []
    simpa [List.rtake] using h
  refine ⟨hfold, ?_, ?_, ?_, ?_⟩
  · intro xs hle
    rw [hfold xs, List.length_drop]
    omega
  · intro w x
    simp only [pushWindow, List.length_drop, List.length_append, List.length_singleton]
    omega
  · intro w x hlt
    have h0 : w.length + 1 - n = 0 := by omega
    simp [pushWindow, h0]
  · intro w x heq hpos
    have h1 : w.length + 1 - n = 1 := by omega
    simp only [pushWindow, List.length_append, List.length_singleton, h1,
      List.drop_append_eq_append_drop, List.length_drop]
    have h2 : 1 - w.length = 0 := by omega
    simp [h2, List.drop_one]

/-- Witness for C3 at capacity 2 and pushes `[1, 2, 3]`. -/
theorem window_fifo_bounded_witness :
    List.foldl (pushWindow 2) [] [1, 2, 3] = [2, 3]
    ∧ (List.foldl (pushWindow 2) [] [1, 2, 3]).length = 2
    ∧ pushWindow 2 [1] 2 = [1, 2]
    ∧ pushWindow 2 [1, 2] 3 = [2, 3] := by
  refine ⟨(window_fifo_bounded Nat 2).1 [1, 2, 3], ?_, ?_, ?_⟩
  · exact (window_fifo_bounded Nat 2).2.1 [1, 2, 3] (by decide)
  · exact (window_fifo_bounded Nat 2).2.2.2.1 [1] 2 (by decide)
  · have h := (window_fifo_bounded Nat 2).2.2.2.2 [1, 2] 3 (by decide) (by decide)
    simpa using h

/-- C4: `calculate_error_rate` returns 0 on an empty window; on a nonempty
window of length `L` holding `K` records whose upstream status lies in
`[500, 600)` it returns `100 * K / L`; the result always lies in `[0, 100]`;
and a record counts as an error exactly when its upstream status lies in
`[500, 600)`. -/
theorem error_rate_spec :
    (calculate_error_rate [] = 0)
  ∧ (∀ w : List LogRecord, w ≠ [] →
      calculate_error_rate w = 100 * ((w.countP fun r => isErrorRecord r : Nat) : ℚ) / (w.length : ℚ))
  ∧ (∀ w : List LogRecord, 0 ≤ calculate_error_rate w ∧ calculate_error_rate w ≤ 100)
  ∧ (∀ r : LogRecord, isErrorRecord r = true ↔ 500 ≤ r.upstream_status ∧ r.upstream_status < 600) := by
  have hform : ∀ w : List LogRecord, w ≠ [] →
      calculate_error_rate w = 100 * ((w.countP fun r => isErrorRecord r : Nat) : ℚ) / (w.length : ℚ) := by
    intro w hw
    rw [calculate_error_rate, if_neg hw]
    ring
  refine ⟨rfl, hform, ?_, ?_⟩
  · intro w
    by_cases hw : w = []
    · subst hw; constructor <;> norm_num [calculate_error_rate]
    · have hL : (0 : ℚ) < (w.length : ℚ) := by
        have : 0 < w.length := List.length_pos.mpr hw
        exact_mod_cast this
      have hc0 : (0 : ℚ) ≤ ((w.countP fun r => isErrorRecord r : Nat) : ℚ) := by positivity
      have hcL : ((w.countP fun r => isErrorRecord r : Nat) : ℚ) ≤ (w.length : ℚ) := by
        exact_mod_cast List.countP_le_length _
      rw [hform w hw]
      constructor
      · positivity
      · rw [div_le_iff₀ hL]
        nlinarith
  · intro r
    simp [isErrorRecord]

/-- Witness for C4: one error among two records gives a 50 percent rate. -/
theorem error_rate_spec_witness :
    calculate_error_rate [sampleError, sampleOk] = 50
    ∧ calculate_error_rate [] = 0 := by
  constructor
  · have h := error_rate_spec.2.1 [sampleError, sampleOk] (by decide)
    rw [h]
    norm_num [sampleError, sampleOk, isErrorRecord]
  · exact error_rate_spec.1

/-- C2: `parse_log_line` produces a record only for lines that the
structured-text pattern `log_pattern` matches; any line the pattern rejects
— such as one whose request segment is not quoted — is unparseable. -/
theorem unmatched_line_unparseable :
    (∀ line : String, log_pattern_match line = none → parse_log_line line = none)
  ∧ log_pattern_match "[10/Oct/2025] 1.2.3.4 GET / 200 \"ua\" 0.1 0.1 \"up\" 200 \"blue\" \"rel\"" = none
  ∧ parse_log_line "[10/Oct/2025] 1.2.3.4 GET / 200 \"ua\" 0.1 0.1 \"up\" 200 \"blue\" \"rel\"" = none := by
  refine ⟨?_, by decide, by decide⟩
  intro line h
  show (log_pattern_match line).bind convert_fields = none
  rw [h]
  rfl

/-- Witness for C2: a line whose user-agent segment is unquoted neither
matches nor parses. -/
theorem unmatched_line_unparseable_witness :
    parse_log_line "[t] 1.2.3.4 \"GET /\" 200 ua 0.1 0.1 \"up\" 200 \"blue\" \"rel\"" = none :=
  unmatched_line_unparseable.1 _ (by decide)

/-- C9: on a matched line, each numeric field independently is either the
"-" placeholder or must coerce — the placeholder itself never rejects a
field, so a line all of whose numeric fields are placeholders or numeric
parses successfully; and whichever timing field holds "-" comes out as 0.0,
while a "-" upstream status falls back to the client-facing status. -/
theorem placeholder_fields_parse (line : String) (g : Groups)
    (hm : log_pattern_match line = some g)
    (st : Int) (hst : pyInt? g.status = some st)
    (hrt : g.request_time = "-" ∨ ∃ q : PyFloat, pyFloat? g.request_time = some q)
    (hurt : g.upstream_response_time = "-"
      ∨ ∃ q : PyFloat, pyFloat? g.upstream_response_time = some q)
    (hust : g.upstream_status = "-" ∨ ∃ n : Int, pyInt? g.upstream_status = some n) :
    ∃ r : LogRecord, parse_log_line line = some r
      ∧ r.status = st
      ∧ (g.request_time = "-" → r.request_time = PyFloat.fin 0)
      ∧ (g.upstream_response_time = "-" → r.upstream_response_time = PyFloat.fin 0)
      ∧ (g.upstream_status = "-" → r.upstream_status = r.status) := by
  have hrt2 : ∃ v : PyFloat, coerceTime g.request_time = some v
      ∧ (g.request_time = "-" → v = PyFloat.fin 0) := by
    by_cases hd : g.request_time = "-"
    · exact ⟨PyFloat.fin 0, by simp [coerceTime, hd], fun _ => rfl⟩
    · rcases hrt with h | ⟨q, hq⟩
      · exact absurd h hd
      · exact ⟨q, by simp [coerceTime, hd, hq], fun hc => absurd hc hd⟩
  have hurt2 : ∃ v : PyFloat, coerceTime g.upstream_response_time = some v
      ∧ (g.upstream_response_time = "-" → v = PyFloat.fin 0) := by
    by_cases hd : g.upstream_response_time = "-"
    · exact ⟨PyFloat.fin 0, by simp [coerceTime, hd], fun _ => rfl⟩
    · rcases hurt with h | ⟨q, hq⟩
      · exact absurd h hd
      · exact ⟨q, by simp [coerceTime, hd, hq], fun hc => absurd hc hd⟩
  have hust2 : ∃ v : Int,
      (if g.upstream_status = "-" then some st else pyInt? g.upstream_status) = some v
      ∧ (g.upstream_status = "-" → v = st) := by
    by_cases hd : g.upstream_status = "-"
    · exact ⟨st, by simp [hd], fun _ => rfl⟩
    · rcases hust with h | ⟨n, hn⟩
      · exact absurd h hd
      · exact ⟨n, by simp [hd, hn], fun hc => absurd hc hd⟩
  obtain ⟨rt, hrtc, hrtm⟩ := hrt2
  obtain ⟨urt, hurtc, hurtm⟩ := hurt2
  obtain ⟨ust, hustc, hustm⟩ := hust2
  refine ⟨⟨g.timestamp, g.remote_addr, g.request, st, g.user_agent, rt, urt,
          g.upstream_addr, ust, g.pool, g.release⟩, ?_, rfl,
          fun h => hrtm h, fun h => hurtm h, fun h => hustm h⟩
  show (log_pattern_match line).bind convert_fields = _
  rw [hm]
  simp only [Option.some_bind]
  simp [convert_fields, hst, hrtc, hurtc, hustc]

/-- Witness for C9 on two concrete lines: one with placeholder timing fields
but a numeric upstream status (the disjuncts mixed), and one with both
upstream fields "-" so the upstream status falls back to the client
status. -/
theorem placeholder_fields_parse_witness :
    (∃ r : LogRecord,
      parse_log_line "[t] 1.1.1.1 \"GET /\" 503 \"ua\" - - \"up\" 502 \"blue\" \"r1\"" = some r
      ∧ r.status = 503 ∧ r.request_time = PyFloat.fin 0
      ∧ r.upstream_response_time = PyFloat.fin 0)
    ∧ (∃ r : LogRecord,
      parse_log_line "[t] 1.1.1.1 \"GET /\" 503 \"ua\" - - \"up\" - \"blue\" \"r1\"" = some r
      ∧ r.upstream_response_time = PyFloat.fin 0 ∧ r.upstream_status = r.status) := by
  constructor
  · obtain ⟨r, h1, h2, h3, h4, _⟩ := placeholder_fields_parse
      "[t] 1.1.1.1 \"GET /\" 503 \"ua\" - - \"up\" 502 \"blue\" \"r1\""
      ⟨"t", "1.1.1.1", "GET /", "503", "ua", "-", "-", "up", "502", "blue", "r1"⟩
      (by decide) 503 (by decide) (Or.inl rfl) (Or.inl rfl) (Or.inr ⟨502, by decide⟩)
    exact ⟨r, h1, h2, h3 rfl, h4 rfl⟩
  · obtain ⟨r, h1, _, _, h4, h5⟩ := placeholder_fields_parse
      "[t] 1.1.1.1 \"GET /\" 503 \"ua\" - - \"up\" - \"blue\" \"r1\""
      ⟨"t", "1.1.1.1", "GET /", "503", "ua", "-", "-", "up", "-", "blue", "r1"⟩
      (by decide) 503 (by decide) (Or.inl rfl) (Or.inl rfl) (Or.inl rfl)
    exact ⟨r, h1, h4 rfl, h5 rfl⟩

/-- C10: on a matched line, failure of any numeric coercion (a non-numeric
status, or a timing or upstream-status field that is neither numeric nor the
"-" placeholder) rejects the whole line; a rejected line leaves the watcher
state — in particular the window — unchanged and produces no event and no
dispatch. -/
theorem coercion_failure_rejects_line (line : String) (g : Groups)
    (hm : log_pattern_match line = some g)
    (hfail : pyInt? g.status = none
      ∨ (g.request_time ≠ "-" ∧ pyFloat? g.request_time = none)
      ∨ (g.upstream_response_time ≠ "-" ∧ pyFloat? g.upstream_response_time = none)
      ∨ (g.upstream_status ≠ "-" ∧ pyInt? g.upstream_status = none)) :
    parse_log_line line = none
    ∧ ∀ (st : WatcherState) (now : ℚ) (rF rE : SinkResponse),
        process_log_line st line now rF rE = ⟨st, none, none, none⟩ := by
  have hb : convert_fields g = none := by
    rcases hfail with h | ⟨hne, h⟩ | ⟨hne, h⟩ | ⟨hne, h⟩
    · simp [convert_fields, h]
    · have hct : coerceTime g.request_time = none := by simp [coerceTime, hne, h]
      cases h1 : pyInt? g.status <;> simp [convert_fields, h1, hct]
    · have hct : coerceTime g.upstream_response_time = none := by simp [coerceTime, hne, h]
      cases h1 : pyInt? g.status <;> cases h2 : coerceTime g.request_time <;>
        simp [convert_fields, h1, h2, hct]
    · cases h1 : pyInt? g.status <;> cases h2 : coerceTime g.request_time <;>
        cases h3 : coerceTime g.upstream_response_time <;>
        simp [convert_fields, h1, h2, h3, hne, h]
  have hparse : parse_log_line line = none := by
    show (log_pattern_match line).bind convert_fields = none
    rw [hm]
    simpa using hb
  refine ⟨hparse, ?_⟩
  intro st now rF rE
  simp [process_log_line, hparse]

/-- Witness for C10 on a concrete line with a non-numeric request time. -/
theorem coercion_failure_rejects_line_witness :
    parse_log_line "[t] 1.2.3.4 \"GET /\" 200 \"ua\" abc 0.1 \"up\" 200 \"blue\" \"rel\"" = none
    ∧ process_log_line sampleState
        "[t] 1.2.3.4 \"GET /\" 200 \"ua\" abc 0.1 \"up\" 200 \"blue\" \"rel\"" 0
        SinkResponse.exn SinkResponse.exn = ⟨sampleState, none, none, none⟩ := by
  have h := coercion_failure_rejects_line
    "[t] 1.2.3.4 \"GET /\" 200 \"ua\" abc 0.1 \"up\" 200 \"blue\" \"rel\""
    ⟨"t", "1.2.3.4", "GET /", "200", "ua", "abc", "0.1", "up", "200", "blue", "rel"⟩
    (by decide) (Or.inr (Or.inl (by decide)))
  exact ⟨h.1, h.2 sampleState 0 SinkResponse.exn SinkResponse.exn⟩

/-- C1: the JSON-grammar parser accepts every JSON object, degrading missing
keys to defaults rather than failing; in particular, the object with status
503 and pool "blue" parses to a record with pool "blue", client status 503,
an upstream status defaulting to the client status, and the remaining keys
at their defaults. -/
theorem json_object_parse_spec :
    (∀ kvs : List (String × Json), (parse_json_line (Json.obj kvs)).isSome = true)
  ∧ parse_json_line (Json.obj [("status", Json.num 503), ("pool", Json.str "blue")])
      = some ⟨some "blue", none, 503, none, 0, 503⟩ := by
  constructor
  · intro kvs; rfl
  · simp [parse_json_line, jsonIntD, jsonStr, jsonNumD, jsonLookup]

/-- Looking up a key just written into the alert-time dict returns the
written value. -/
theorem alistSet_lookup_self (m : List (String × ℚ)) (k : String) (v : ℚ) :
    (alistSet m k v).lookup k = some v := by
  induction m with
  | nil => simp [alistSet, List.lookup]
  | cons p rest ih =>
      obtain ⟨k1, v1⟩ := p
      by_cases h : k1 = k
      · simp [alistSet, h, List.lookup]
      · have hne : (k == k1) = false := by simp [Ne.symm h]
        simp [alistSet, h, List.lookup, ih, hne]

/-- `send_slack_alert` can only touch the `last_alert_time` field. -/
theorem send_slack_alert_preserves (st : WatcherState) (a : String) (now : ℚ)
    (r : SinkResponse) :
    (send_slack_alert st a now r).2.request_window = st.request_window
    ∧ (send_slack_alert st a now r).2.window_size = st.window_size
    ∧ (send_slack_alert st a now r).2.error_threshold = st.error_threshold
    ∧ (send_slack_alert st a now r).2.maintenance_mode = st.maintenance_mode
    ∧ (send_slack_alert st a now r).2.slack_webhook = st.slack_webhook
    ∧ (send_slack_alert st a now r).2.cooldown_sec = st.cooldown_sec
    ∧ (send_slack_alert st a now r).2.current_pool = st.current_pool := by
  unfold send_slack_alert
  split_ifs <;> try exact ⟨rfl, rfl, rfl, rfl, rfl, rfl, rfl⟩
  cases r with
  | exn => exact ⟨rfl, rfl, rfl, rfl, rfl, rfl, rfl⟩
  | status c =>
      by_cases hc : c = 200 <;> simp [hc]

/-- C7: an alert type never recorded in `last_alert_time` is never blocked
by cooldown; and when a first dispatch goes out (maintenance off, webhook
configured, no active cooldown) and the sink answers 200, it reaches `sent`,
while a second dispatch of the same type within the cooldown window is
suppressed by cooldown whatever the sink would have answered. -/
theorem cooldown_suppression_spec :
    (∀ (st : WatcherState) (a : String) (now : ℚ),
        st.last_alert_time.lookup a = none → is_cooldown_active st a now = false)
  ∧ (∀ (st : WatcherState) (a : String) (t1 t2 : ℚ) (r2 : SinkResponse),
        st.maintenance_mode = false → pythonTruthy st.slack_webhook = true →
        is_cooldown_active st a t1 = false → t2 - t1 < st.cooldown_sec →
        (send_slack_alert st a t1 (SinkResponse.status 200)).1 = DispatchResult.sent
        ∧ (send_slack_alert (send_slack_alert st a t1 (SinkResponse.status 200)).2 a t2 r2).1
            = DispatchResult.suppressedCooldown) := by
  constructor
  · intro st a now h
    rw [is_cooldown_active, h]
  · intro st a t1 t2 r2 hm hw hc hcd
    have hsend : send_slack_alert st a t1 (SinkResponse.status 200)
        = (DispatchResult.sent,
           { st with last_alert_time := alistSet st.last_alert_time a t1 }) := by
      unfold send_slack_alert
      rw [if_neg (by simp [hm]), if_neg (by simp [hw]), if_neg (by simp [hc])]
      rfl
    refine ⟨by rw [hsend], ?_⟩
    rw [hsend]
    have hact : is_cooldown_active
        { st with last_alert_time := alistSet st.last_alert_time a t1 } a t2 = true := by
      rw [is_cooldown_active]
      simp only [alistSet_lookup_self]
      simpa using hcd
    unfold send_slack_alert
    rw [if_neg (by simp [hm]), if_neg (by simp [hw]), if_pos (by simp [hact])]

/-- Witness for C7 with a fresh state, sends at times 0 and 1, cooldown 300. -/
theorem cooldown_suppression_spec_witness :
    is_cooldown_active sampleState "High Error Rate" 0 = false
    ∧ (send_slack_alert sampleState "High Error Rate" 0 (SinkResponse.status 200)).1
        = DispatchResult.sent
    ∧ (send_slack_alert (send_slack_alert sampleState "High Error Rate" 0
          (SinkResponse.status 200)).2 "High Error Rate" 1 (SinkResponse.status 200)).1
        = DispatchResult.suppressedCooldown := by
  have h0 := cooldown_suppression_spec.1 sampleState "High Error Rate" 0 (by rfl)
  have h := cooldown_suppression_spec.2 sampleState "High Error Rate" 0 1
    (SinkResponse.status 200) rfl rfl h0 (by norm_num [sampleState])
  exact ⟨h0, h.1, h.2⟩

/-- C8: a dispatch whose sink response is anything other than a 200 status —
a failure status or a raised exception — leaves the whole watcher state, in
particular the cooldown bookkeeping, unchanged, so a later dispatch of the
same type sees exactly the cooldown status it would have seen before; the
`last_alert_time` entry can only change on a 200 response, and then the
dispatch reached `sent`. -/
theorem failed_dispatch_preserves_cooldown :
    ∀ (st : WatcherState) (a : String) (now : ℚ),
      (∀ c : Nat, c ≠ 200 → (send_slack_alert st a now (SinkResponse.status c)).2 = st)
    ∧ ((send_slack_alert st a now SinkResponse.exn).2 = st)
    ∧ (∀ r : SinkResponse,
         (send_slack_alert st a now r).2.last_alert_time ≠ st.last_alert_time →
         r = SinkResponse.status 200 ∧ (send_slack_alert st a now r).1 = DispatchResult.sent)
    ∧ (∀ (r : SinkResponse) (a2 : String) (t2 : ℚ), r ≠ SinkResponse.status 200 →
         is_cooldown_active (send_slack_alert st a now r).2 a2 t2
           = is_cooldown_active st a2 t2) := by
  intro st a now
  have hkey : ∀ r : SinkResponse, r ≠ SinkResponse.status 200 →
      (send_slack_alert st a now r).2 = st := by
    intro r hr
    unfold send_slack_alert
    split_ifs <;> try rfl
    cases r with
    | exn => rfl
    | status c =>
        have hc : ¬(c = 200) := by
          intro h
          exact hr (by rw [h])
        simp [hc]
  refine ⟨fun c hc => hkey _ (by simp [hc]), hkey _ (by simp), ?_, ?_⟩
  · intro r hne
    by_cases hr : r = SinkResponse.status 200
    · subst hr
      refine ⟨rfl, ?_⟩
      unfold send_slack_alert at hne ⊢
      split_ifs at hne ⊢ <;> try exact absurd rfl hne
      rfl
    · exact absurd (by rw [hkey r hr]) hne
  · intro r a2 t2 hr
    rw [hkey r hr]

/-- Witness for C8: a 500 response and an exception both leave the state and
the cooldown query unchanged. -/
theorem failed_dispatch_preserves_cooldown_witness :
    (send_slack_alert sampleState "Failover Detected" 5 (SinkResponse.status 500)).2 = sampleState
    ∧ is_cooldown_active (send_slack_alert sampleState "Failover Detected" 5
        SinkResponse.exn).2 "Failover Detected" 6
      = is_cooldown_active sampleState "Failover Detected" 6 := by
  refine ⟨(failed_dispatch_preserves_cooldown sampleState "Failover Detected" 5).1 500 (by decide), ?_⟩
  exact (failed_dispatch_preserves_cooldown sampleState "Failover Detected" 5).2.2.2
    SinkResponse.exn "Failover Detected" 6 (by simp)

/-- `send_slack_alert` never changes the request window. -/
theorem send_slack_alert_request_window (st : WatcherState) (a : String) (now : ℚ)
    (r : SinkResponse) : (send_slack_alert st a now r).2.request_window = st.request_window :=
  (send_slack_alert_preserves st a now r).1

/-- `send_slack_alert` never changes the window size. -/
theorem send_slack_alert_window_size (st : WatcherState) (a : String) (now : ℚ)
    (r : SinkResponse) : (send_slack_alert st a now r).2.window_size = st.window_size :=
  (send_slack_alert_preserves st a now r).2.1

/-- `send_slack_alert` never changes the error threshold. -/
theorem send_slack_alert_error_threshold (st : WatcherState) (a : String) (now : ℚ)
    (r : SinkResponse) : (send_slack_alert st a now r).2.error_threshold = st.error_threshold :=
  (send_slack_alert_preserves st a now r).2.2.1

/-- `send_slack_alert` never changes the stored pool. -/
theorem send_slack_alert_current_pool (st : WatcherState) (a : String) (now : ℚ)
    (r : SinkResponse) : (send_slack_alert st a now r).2.current_pool = st.current_pool :=
  (send_slack_alert_preserves st a now r).2.2.2.2.2.2

/-- The error check dispatches exactly when the rate exceeds the threshold
and the window has reached the configured size. -/
theorem errorCheck_errorDispatch_isSome (st : WatcherState) (ev : Option FailoverEvent)
    (fd : Option DispatchResult) (now : ℚ) (r : SinkResponse) :
    (errorCheck st ev fd now r).errorDispatch.isSome = true ↔
      (calculate_error_rate st.request_window > st.error_threshold
       ∧ st.request_window.length ≥ st.window_size) := by
  unfold errorCheck
  split_ifs with h <;> simp [h]

/-- The error check passes the failover event through unchanged. -/
theorem errorCheck_failoverEvent (st : WatcherState) (ev : Option FailoverEvent)
    (fd : Option DispatchResult) (now : ℚ) (r : SinkResponse) :
    (errorCheck st ev fd now r).failoverEvent = ev := by
  unfold errorCheck
  split_ifs <;> rfl

/-- The error check leaves the stored pool unchanged. -/
theorem errorCheck_state_current_pool (st : WatcherState) (ev : Option FailoverEvent)
    (fd : Option DispatchResult) (now : ℚ) (r : SinkResponse) :
    (errorCheck st ev fd now r).state.current_pool = st.current_pool := by
  unfold errorCheck
  split_ifs <;> simp [send_slack_alert_current_pool]

/-- On a parsed line, `process_log_line` always ends in an error check whose
state carries the pushed window and the original size and threshold. -/
theorem process_errorCheck_shape (st : WatcherState) (line : String) (now : ℚ)
    (rF rE : SinkResponse) (data : LogRecord) (hp : parse_log_line line = some data) :
    ∃ (st2 : WatcherState) (ev : Option FailoverEvent) (fd : Option DispatchResult),
      process_log_line st line now rF rE = errorCheck st2 ev fd now rE
      ∧ st2.request_window = pushWindow st.window_size st.request_window data
      ∧ st2.window_size = st.window_size
      ∧ st2.error_threshold = st.error_threshold := by
  simp only [process_log_line, hp]
  cases hcp : st.current_pool with
  | none =>
      by_cases h1 : data.pool ≠ "" ∧ some data.pool ≠ (none : Option String)
      · simp only [hcp, if_pos h1]
        exact ⟨_, _, _, rfl, rfl, rfl, rfl⟩
      · simp only [hcp, if_neg h1]
        exact ⟨_, _, _, rfl, rfl, rfl, rfl⟩
  | some prev =>
      by_cases h1 : data.pool ≠ "" ∧ some data.pool ≠ (some prev : Option String)
      · simp only [hcp, if_pos h1]
        by_cases h2 : prev ≠ "" ∧ data.pool ≠ prev
        · simp only [if_pos h2]
          refine ⟨_, _, _, rfl, ?_, ?_, ?_⟩
          · rw [send_slack_alert_request_window]
          · rw [send_slack_alert_window_size]
          · rw [send_slack_alert_error_threshold]
        · simp only [if_neg h2]
          exact ⟨_, _, _, rfl, rfl, rfl, rfl⟩
      · simp only [hcp, if_neg h1]
        exact ⟨_, _, _, rfl, rfl, rfl, rfl⟩

/-- C5: the "High Error Rate" alert is attempted only when the computed rate
strictly exceeds the threshold AND the window (after the push) has reached
the configured size; in particular, while the window is still below the
configured size no high-error dispatch is attempted, whatever the records
hold. -/
theorem high_error_alert_gating :
    ∀ (st : WatcherState) (line : String) (now : ℚ) (rF rE : SinkResponse),
      ((process_log_line st line now rF rE).errorDispatch.isSome = true →
        ∃ data : LogRecord, parse_log_line line = some data
          ∧ calculate_error_rate (pushWindow st.window_size st.request_window data)
              > st.error_threshold
          ∧ st.window_size ≤ (pushWindow st.window_size st.request_window data).length)
    ∧ (∀ data : LogRecord, parse_log_line line = some data →
        (pushWindow st.window_size st.request_window data).length < st.window_size →
        (process_log_line st line now rF rE).errorDispatch = none) := by
  intro st line now rF rE
  constructor
  · intro hsome
    cases hp : parse_log_line line with
    | none =>
        rw [show process_log_line st line now rF rE = ⟨st, none, none, none⟩ from by
          simp [process_log_line, hp]] at hsome
        simp at hsome
    | some data =>
        obtain ⟨st2, ev, fd, heq, hwin, hws, hth⟩ :=
          process_errorCheck_shape st line now rF rE data hp
        rw [heq, errorCheck_errorDispatch_isSome, hwin, hws, hth] at hsome
        exact ⟨data, rfl, hsome.1, hsome.2⟩
  · intro data hp hlt
    obtain ⟨st2, ev, fd, heq, hwin, hws, hth⟩ :=
      process_errorCheck_shape st line now rF rE data hp
    rw [heq]
    cases hE : (errorCheck st2 ev fd now rE).errorDispatch with
    | none => rfl
    | some d =>
        have h := (errorCheck_errorDispatch_isSome st2 ev fd now rE).mp (by rw [hE]; rfl)
        rw [hwin, hws] at h
        exact absurd h.2 (by omega)

/-- Witness for C5: with window size 1 and threshold 2 percent, a single
503 record triggers an attempted high-error dispatch, so the gating theorem
yields the rate bound and the fill condition at that input. -/
theorem high_error_alert_gating_witness :
    ∃ data : LogRecord,
      parse_log_line "[t] 1.1.1.1 \"GET /\" 503 \"ua\" - - \"up\" - \"blue\" \"r1\"" = some data
      ∧ calculate_error_rate (pushWindow 1 [] data) > 2
      ∧ 1 ≤ (pushWindow 1 [] data).length := by
  have hparse : parse_log_line "[t] 1.1.1.1 \"GET /\" 503 \"ua\" - - \"up\" - \"blue\" \"r1\""
      = some ⟨"t", "1.1.1.1", "GET /", 503, "ua", PyFloat.fin 0, PyFloat.fin 0,
              "up", 503, "blue", "r1"⟩ := by decide
  have hsome : (process_log_line ⟨2, 1, 300, false, some "hook", [], [], none⟩
      "[t] 1.1.1.1 \"GET /\" 503 \"ua\" - - \"up\" - \"blue\" \"r1\"" 0
      (SinkResponse.status 200) (SinkResponse.status 200)).errorDispatch.isSome = true := by
    simp only [process_log_line, hparse]
    norm_num [pushWindow, errorCheck, calculate_error_rate, isErrorRecord,
      List.countP, List.countP.go]
    split_ifs <;> rfl
  exact (high_error_alert_gating ⟨2, 1, 300, false, some "hook", [], [], none⟩
      "[t] 1.1.1.1 \"GET /\" 503 \"ua\" - - \"up\" - \"blue\" \"r1\"" 0
      (SinkResponse.status 200) (SinkResponse.status 200)).1 hsome

/-- Characterization of the pool-change outcome of `process_log_line` on a
parsed line: the failover event and the stored pool as functions of the
observed pool and the stored pool. -/
theorem process_pool_branch (st : WatcherState) (line : String) (now : ℚ)
    (rF rE : SinkResponse) (data : LogRecord) (hp : parse_log_line line = some data) :
    (process_log_line st line now rF rE).failoverEvent
      = (if data.pool ≠ "" ∧ some data.pool ≠ st.current_pool then
           match st.current_pool with
           | some prev =>
               if prev ≠ "" ∧ data.pool ≠ prev
               then some ⟨prev, data.pool, data.release, data.timestamp⟩ else none
           | none => none
         else none)
    ∧ (process_log_line st line now rF rE).state.current_pool
      = (if data.pool ≠ "" ∧ some data.pool ≠ st.current_pool then some data.pool
         else st.current_pool) := by
  simp only [process_log_line, hp]
  cases hcp : st.current_pool with
  | none =>
      by_cases h1 : data.pool ≠ "" ∧ some data.pool ≠ (none : Option String)
      · simp only [hcp, if_pos h1, errorCheck_failoverEvent, errorCheck_state_current_pool]
        exact ⟨trivial, trivial⟩
      · simp only [hcp, if_neg h1, errorCheck_failoverEvent, errorCheck_state_current_pool]
        exact ⟨trivial, trivial⟩
  | some prev =>
      by_cases h1 : data.pool ≠ "" ∧ some data.pool ≠ (some prev : Option String)
      · by_cases h2 : prev ≠ "" ∧ data.pool ≠ prev
        · simp only [hcp, if_pos h1, if_pos h2, errorCheck_failoverEvent,
            errorCheck_state_current_pool]
          exact ⟨trivial, trivial⟩
        · simp only [hcp, if_pos h1, if_neg h2, errorCheck_failoverEvent,
            errorCheck_state_current_pool]
          exact ⟨trivial, trivial⟩
      · simp only [hcp, if_neg h1, errorCheck_failoverEvent, errorCheck_state_current_pool]
        exact ⟨trivial, trivial⟩

/-- C6: on a parsed line, a failover event is emitted exactly when the
observed pool is nonempty, differs from the stored pool, and the stored pool
is itself truthy (non-null, nonempty); whenever the observed pool is
nonempty and differs, the stored pool is overwritten with it (whatever the
dispatch outcome was — the sink responses are universally quantified); in
the remaining cases the stored pool is untouched; and the emitted event
carries the previous and new pool together with the record's release and
timestamp. -/
theorem failover_detection_spec :
    ∀ (st : WatcherState) (line : String) (now : ℚ) (rF rE : SinkResponse) (data : LogRecord),
      parse_log_line line = some data →
      (((process_log_line st line now rF rE).failoverEvent.isSome = true) ↔
         (data.pool ≠ "" ∧ some data.pool ≠ st.current_pool
          ∧ pythonTruthy st.current_pool = true))
      ∧ (data.pool ≠ "" → some data.pool ≠ st.current_pool →
           (process_log_line st line now rF rE).state.current_pool = some data.pool)
      ∧ (¬(data.pool ≠ "" ∧ some data.pool ≠ st.current_pool) →
           (process_log_line st line now rF rE).state.current_pool = st.current_pool)
      ∧ (∀ prev : String, st.current_pool = some prev → prev ≠ "" → data.pool ≠ "" →
           data.pool ≠ prev →
           (process_log_line st line now rF rE).failoverEvent
             = some ⟨prev, data.pool, data.release, data.timestamp⟩) := by
  intro st line now rF rE data hp
  obtain ⟨hev, hpool⟩ := process_pool_branch st line now rF rE data hp
  refine ⟨?_, ?_, ?_, ?_⟩
  · rw [hev]
    cases hcp : st.current_pool with
    | none => simp [pythonTruthy]
    | some prev =>
        by_cases h2 : prev = ""
        · subst h2
          simp [pythonTruthy]
        · by_cases h3 : data.pool = prev
          · subst h3
            simp [pythonTruthy, h2]
          · by_cases h4 : data.pool = ""
            · simp [pythonTruthy, h2, h3, h4]
            · simp [pythonTruthy, h2, h3, h4]
  · intro hne hdiff
    rw [hpool, if_pos ⟨hne, hdiff⟩]
  · intro hn
    rw [hpool, if_neg hn]
  · intro prev hcp hprev hpoolne hne
    rw [hev]
    simp [hcp, hprev, hpoolne, hne]

/-- Witness for C6: observing pool "A", then "A" again, then "B", starting
with no stored pool, emits no event, no event, and then exactly one failover
event carrying previous "A" and new "B". -/
theorem failover_detection_spec_witness :
    stepA1.failoverEvent = none
    ∧ stepA2.failoverEvent = none
    ∧ stepB3.failoverEvent = some ⟨"A", "B", "r1", "t"⟩ := by
  have hA : parse_log_line lineA = some recA := by decide
  have hB : parse_log_line lineB = some recB := by decide
  have h1 := failover_detection_spec sampleState lineA 0 (SinkResponse.status 200)
    (SinkResponse.status 200) recA hA
  have e1 : stepA1.failoverEvent = none := by
    cases hev : (process_log_line sampleState lineA 0 (SinkResponse.status 200)
        (SinkResponse.status 200)).failoverEvent with
    | none => exact hev
    | some e =>
        exfalso
        have hx := h1.1.mp (by rw [hev]; rfl)
        simp [sampleState, pythonTruthy] at hx
  have p1 : stepA1.state.current_pool = some "A" := by
    have hx := h1.2.1 (by decide) (by simp [sampleState])
    simpa [recA] using hx
  have h2 := failover_detection_spec stepA1.state lineA 1 (SinkResponse.status 200)
    (SinkResponse.status 200) recA hA
  have e2 : stepA2.failoverEvent = none := by
    cases hev : (process_log_line stepA1.state lineA 1 (SinkResponse.status 200)
        (SinkResponse.status 200)).failoverEvent with
    | none => exact hev
    | some e =>
        exfalso
        have hx := h2.1.mp (by rw [hev]; rfl)
        rw [p1] at hx
        simp [recA] at hx
  have p2 : stepA2.state.current_pool = some "A" := by
    have hx := h2.2.2.1 (by
      rintro ⟨_, hy⟩
      apply hy
      rw [p1]
      simp [recA])
    rw [show stepA2.state.current_pool
        = (process_log_line stepA1.state lineA 1 (SinkResponse.status 200)
            (SinkResponse.status 200)).state.current_pool from rfl, hx, p1]
  have h3 := failover_detection_spec stepA2.state lineB 2 (SinkResponse.status 200)
    (SinkResponse.status 200) recB hB
  have e3 : stepB3.failoverEvent = some ⟨"A", "B", "r1", "t"⟩ := by
    have hx := h3.2.2.2 "A" p2 (by decide) (by decide) (by decide)
    simpa [recB] using hx
  exact ⟨e1, e2, e3⟩
